import Mathlib

/-!
Verification development for the financial P&L engine in `logic.py` of the
repository (transaction classification, month-keyed accumulation, derived
financial metrics, overrides, margins, value parsing, ingestion error paths
and the linear forecaster).

Modelling conventions:
* Monetary values are exact rationals (`ℚ`).  The Python code uses float64,
  but every claim below is about the algebraic expressions the code computes,
  which hold exactly at the level of those expressions.
* Text is modelled as `List Char` (named `Str` here).  Python's `x in y`
  substring test is `hasSub`, `str.strip` is `trimStr`, and
  `normalize_text_helper` (lowercase + strip + drop diacritics via NFKD) is
  `norm`; the diacritic fold covers the Latin accents appearing in the data.
* The month-keyed accumulator `line_values` (a dict with keys 1..120, inner
  dicts keyed by the month list) is modelled as a total function
  `Int → Str → ℚ` together with the explicit 1..120 bound that in Python is
  enforced by the `KeyError` caught by the bare `except`.
-/

set_option maxRecDepth 20000

abbrev Str := List Char

def str (s : String) : Str := s.data

/-- Whitespace as recognised by Python's `str.strip()` (the forms that occur
in this data: space, tab, newline, carriage return). -/
def isSpaceCh (c : Char) : Bool :=
  c == ' ' || c == '\t' || c == '\n' || c == '\r'

def trimStr (s : Str) : Str :=
  ((s.dropWhile isSpaceCh).reverse.dropWhile isSpaceCh).reverse

def lowerAscii (c : Char) : Char :=
  if 'A' ≤ c ∧ c ≤ 'Z' then Char.ofNat (c.toNat + 32) else c

/-- Effect of `unicodedata.normalize("NFKD", s)` followed by dropping
combining marks, on the accented Latin letters occurring in this repository
(the input is already lowercased). -/
def foldAccent (c : Char) : Char :=
  if c == 'á' || c == 'à' || c == 'â' || c == 'ã' || c == 'ä' then 'a'
  else if c == 'é' || c == 'è' || c == 'ê' || c == 'ë' then 'e'
  else if c == 'í' || c == 'ì' || c == 'î' || c == 'ï' then 'i'
  else if c == 'ó' || c == 'ò' || c == 'ô' || c == 'õ' || c == 'ö' then 'o'
  else if c == 'ú' || c == 'ù' || c == 'û' || c == 'ü' then 'u'
  else if c == 'ç' then 'c'
  else c

/-- `normalize_text_helper`: strip, lowercase, remove diacritics. -/
def norm (s : Str) : Str :=
  (trimStr s).map (fun c => foldAccent (lowerAscii c))

/-- `leadsStr p t` holds when `p` is an initial segment of `t`
(Python `t.startswith(p)`). -/
def leadsStr : Str → Str → Bool
  | [], _ => true
  | _ :: _, [] => false
  | a :: as, b :: bs => a == b && leadsStr as bs

/-- `hasSub p t` is Python's substring test `p in t`
(`p` occurs contiguously in `t`). -/
def hasSub (p : Str) : Str → Bool
  | [] => leadsStr p []
  | c :: rest => leadsStr p (c :: rest) || hasSub p rest

/-- `int(s)` for the strings appearing as `linha_pl` / override keys:
optional surrounding whitespace, optional sign, decimal digits. -/
def digitVal (c : Char) : Option Nat :=
  if 48 ≤ c.toNat ∧ c.toNat ≤ 57 then some (c.toNat - 48) else none

def digitsToNat : Str → Option Nat
  | [] => none
  | cs =>
    cs.foldl
      (fun acc c =>
        match acc, digitVal c with
        | some a, some d => some (a * 10 + d)
        | _, _ => none)
      (some 0)

def parseIntPy (s : Str) : Option Int :=
  match trimStr s with
  | '-' :: rest => (digitsToNat rest).map (fun n => -(n : Int))
  | '+' :: rest => (digitsToNat rest).map (fun n => (n : Int))
  | t => (digitsToNat t).map (fun n => (n : Int))

/-! ### Data model (`models.py`) -/

structure MappingItem where
  grupo_financeiro : Str
  centro_custo : Str
  fornecedor_cliente : Str
  linha_pl : Str
  tipo : Str
  ativo : Str
  observacoes : Str
deriving DecidableEq

/-- A cleaned transaction row of the processed DataFrame: `Mes_Competencia`
(`none` models `NaT`, excluded from aggregation), `Valor_Num`, and the raw
text fields used for matching (`Categoria 1` is `none` when the column is
absent from the upload). -/
structure Tx where
  month : Option Str
  val : ℚ
  cc : Str
  supp : Str
  desc : Str
  cat : Option Str
deriving DecidableEq

/-- Helper `m(cc, supp, line, tipo, obs)` in `get_initial_mappings`. -/
def m0 (cc supp : Str) (line : Nat) (tipo obs : Str) : MappingItem :=
  ⟨cc, cc, supp, Nat.toDigits 10 line, tipo, str ("Sim"), obs⟩

/-- `get_initial_mappings()`. -/
def initialMappings : List MappingItem :=
  [ m0 (str ("Google Play Net Revenue")) (str ("GOOGLE BRASIL PAGAMENTOS LTDA")) 25 (str ("Receita")) (str ("Receita Google Play")),
    m0 (str ("App Store Net Revenue")) (str ("App Store (Apple)")) 33 (str ("Receita")) (str ("Receita App Store")),
    m0 (str ("Rendimentos de Aplicações")) (str ("CONTA SIMPLES")) 38 (str ("Receita")) (str ("Rendimentos CDI")),
    m0 (str ("Rendimentos de Aplicações")) (str ("BANCO INTER")) 38 (str ("Receita")) (str ("Rendimentos Inter")),
    m0 (str ("Web Services Expenses")) (str ("AWS")) 43 (str ("Custo")) (str ("Amazon Web Services")),
    m0 (str ("Web Services Expenses")) (str ("Cloudflare")) 44 (str ("Custo")) (str ("Cloudflare")),
    m0 (str ("Web Services Expenses")) (str ("Heroku")) 45 (str ("Custo")) (str ("Heroku")),
    m0 (str ("Web Services Expenses")) (str ("IAPHUB")) 46 (str ("Custo")) (str ("IAPHUB")),
    m0 (str ("Web Services Expenses")) (str ("MailGun")) 47 (str ("Custo")) (str ("MailGun")),
    m0 (str ("Web Services Expenses")) (str ("AWS SES")) 48 (str ("Custo")) (str ("AWS SES")),
    m0 (str ("Web Services Expenses")) (str ("Diversos")) 43 (str ("Custo")) (str ("Web Services - Generic")),
    m0 (str ("Marketing & Growth Expenses")) (str ("MGA MARKETING LTDA")) 56 (str ("Despesa")) (str ("Marketing Agency")),
    m0 (str ("Marketing & Growth Expenses")) (str ("Diversos")) 56 (str ("Despesa")) (str ("Marketing - Generic")),
    m0 (str ("Wages Expenses")) (str ("Diversos")) 62 (str ("Despesa")) (str ("Salários e Pró-labore")),
    m0 (str ("Tech Support & Services")) (str ("Adobe")) 68 (str ("Despesa")) (str ("Adobe Creative Cloud")),
    m0 (str ("Tech Support & Services")) (str ("Canva")) 68 (str ("Despesa")) (str ("Canva")),
    m0 (str ("Tech Support & Services")) (str ("ClickSign")) 68 (str ("Despesa")) (str ("ClickSign")),
    m0 (str ("Tech Support & Services")) (str ("COMPANYHERO")) 68 (str ("Despesa")) (str ("Company Hero")),
    m0 (str ("Tech Support & Services")) (str ("Diversos")) 65 (str ("Despesa")) (str ("Tech Support - Generic")),
    m0 (str ("Legal & Accounting Expenses")) (str ("BHUB.AI")) 90 (str ("Despesa")) (str ("BPO Financeiro")),
    m0 (str ("Legal & Accounting Expenses")) (str ("WOLFF")) 90 (str ("Despesa")) (str ("Honorários Advocatícios")),
    m0 (str ("Legal & Accounting Expenses")) (str ("Diversos")) 90 (str ("Despesa")) (str ("Legal & Accounting - Generic")),
    m0 (str ("Office Expenses")) (str ("GO OFFICES")) 90 (str ("Despesa")) (str ("Aluguel")),
    m0 (str ("Office Expenses")) (str ("CO-SERVICES")) 90 (str ("Despesa")) (str ("Serviços de Escritório")),
    m0 (str ("Office Expenses")) (str ("Diversos")) 90 (str ("Despesa")) (str ("Office Expenses - Generic")),
    m0 (str ("Travel")) (str ("American Airlines")) 90 (str ("Despesa")) (str ("Viagens")),
    m0 (str ("Travel")) (str ("Diversos")) 90 (str ("Despesa")) (str ("Travel - Generic")),
    m0 (str ("Other Taxes")) (str ("IMPOSTOS/TRIBUTOS")) 90 (str ("Despesa")) (str ("Impostos e Tributos")),
    m0 (str ("Other Taxes")) (str ("Diversos")) 90 (str ("Despesa")) (str ("Other Taxes - Generic")),
    m0 (str ("Payroll Tax - Brazil")) (str ("IMPOSTOS/TRIBUTOS")) 90 (str ("Despesa")) (str ("Impostos sobre Folha")),
    m0 (str ("Payroll Tax - Brazil")) (str ("Diversos")) 90 (str ("Despesa")) (str ("Payroll Tax - Generic")),
    m0 (str ("Other Expenses")) (str ("Diversos")) 90 (str ("Despesa")) (str ("Despesas Gerais")),
    m0 (str ("Identificar")) (str ("Diversos")) 90 (str ("Despesa")) (str ("Despesas a Identificar")),
    m0 (str ("Devoluções e Estornos")) (str ("Diversos")) 90 (str ("Despesa")) (str ("Refunds & Chargebacks"))]

/-! ### `prepare_mappings` -/

/-- A rule is generic when its normalized supplier is empty or `"diversos"`
(`if supp and supp != "diversos"` in `prepare_mappings`). -/
def isDiversos (m : MappingItem) : Bool :=
  let supp := norm m.fornecedor_cliente
  supp == [] || supp == str ("diversos")

/-- The sort key order used on each `specific_by_cc[cc]` bucket:
normalized supplier-name length, descending. -/
def suppLenGE (a b : MappingItem) : Prop :=
  (norm b.fornecedor_cliente).length ≤ (norm a.fornecedor_cliente).length

instance : DecidableRel suppLenGE := fun _ _ => Nat.decLe _ _

instance : IsTotal MappingItem suppLenGE :=
  ⟨fun a b => Nat.le_total (norm b.fornecedor_cliente).length (norm a.fornecedor_cliente).length⟩

instance : IsTrans MappingItem suppLenGE :=
  ⟨fun _ _ _ hab hbc => le_trans hbc hab⟩

/-- `specific_by_cc[cc]`: the specific rules whose normalized cost center is
`cc`, in insertion order, then stably sorted by normalized supplier length
descending (Python's stable `list.sort(key=len, reverse=True)`; the stable
insertion sort below places earlier elements first among equal keys, exactly
like Python's sort). -/
def specificFor (mappings : List MappingItem) (cc : Str) : List MappingItem :=
  List.insertionSort suppLenGE
    (mappings.filter (fun m => !(isDiversos m) && (norm m.centro_custo == cc)))

/-- `generic_by_cc.get(cc)`: generic rules overwrite one another in the dict,
so the last generic rule for a cost center wins. -/
def genericFor (mappings : List MappingItem) (cc : Str) : Option MappingItem :=
  (mappings.reverse).find? (fun m => isDiversos m && (norm m.centro_custo == cc))

/-! ### Per-transaction matching (`calculate_pnl`, hierarchical strategy) -/

/-- `match_text`: `(supp_norm + " " + desc_norm).strip()`. -/
def matchText (tx : Tx) : Str :=
  trimStr (norm tx.supp ++ (' ' :: norm tx.desc))

/-- Level-1/level-3 scan: first specific rule whose normalized supplier
pattern is a substring of the match text. -/
def matchSpec (cands : List MappingItem) (mt : Str) : Option MappingItem :=
  cands.find? (fun m => hasSub (norm m.fornecedor_cliente) mt)

/-- The hierarchical matcher of `calculate_pnl`:
specific by cost center → generic by cost center → specific by category →
generic by category → unmatched. -/
def matchTx (mappings : List MappingItem) (tx : Tx) : Option MappingItem :=
  let cc := norm tx.cc
  let mt := matchText tx
  match matchSpec (specificFor mappings cc) mt with
  | some m => some m
  | none =>
    match genericFor mappings cc with
    | some m => some m
    | none =>
      match tx.cat with
      | none => none
      | some cat =>
        let cc2 := norm cat
        match matchSpec (specificFor mappings cc2) mt with
        | some m => some m
        | none => genericFor mappings cc2

/-! ### Accumulation -/

/-- `line_values` viewed as a total table; entries outside the dict's actual
key set (lines 1..120 × the month list) stay `0` and are never written. -/
abbrev LineTable := Int → Str → ℚ

def acc0 : LineTable := fun _ _ => 0

/-- `line_values[line][month] += v`. -/
def accAdd (acc : LineTable) (line : Int) (mo : Str) (v : ℚ) : LineTable :=
  fun l m' => if l = line ∧ m' = mo then acc l m' + v else acc l m'

/-- `line_values[line][month] = v`. -/
def accSet (acc : LineTable) (line : Int) (mo : Str) (v : ℚ) : LineTable :=
  fun l m' => if l = line ∧ m' = mo then v else acc l m'

/-- One iteration of the transaction loop in `calculate_pnl`: skip rows whose
month is missing or not in `month_strs`; match; parse the rule's target line
with `int(...)`; accumulate.  A target line outside 1..120 raises `KeyError`
on the `line_values` dict, swallowed by the bare `except` — the transaction
is silently dropped. -/
def processTx (mappings : List MappingItem) (months : List Str) (acc : LineTable) (tx : Tx) : LineTable :=
  match tx.month with
  | none => acc
  | some mo =>
    if mo ∈ months then
      match matchTx mappings tx with
      | none => acc
      | some mp =>
        match parseIntPy mp.linha_pl with
        | none => acc
        | some line =>
          if 1 ≤ line ∧ line ≤ 120 then accAdd acc line mo tx.val else acc
    else acc

def strLe : Str → Str → Bool
  | [], _ => true
  | _ :: _, [] => false
  | a :: as, b :: bs => if a < b then true else if b < a then false else strLe as bs

def insertStr (x : Str) : List Str → List Str
  | [] => [x]
  | y :: ys => if strLe x y then x :: y :: ys else y :: insertStr x ys

def sortStrs : List Str → List Str
  | [] => []
  | x :: xs => insertStr x (sortStrs xs)

/-- `month_strs = sorted(filtered_df['Mes_Competencia'].dropna().unique())`. -/
def monthStrs (txs : List Tx) : List Str :=
  sortStrs ((txs.filterMap Tx.month).dedup)

/-- The transaction-sourced accumulator of `calculate_pnl`. -/
def accOf (mappings : List MappingItem) (txs : List Tx) : LineTable :=
  txs.foldl (processTx mappings (monthStrs txs)) acc0

/-! ### Derived metrics (the per-month derivation block of `calculate_pnl`) -/

/-- `payment_processing_rate = 0.1765`. -/
def payment_processing_rate : ℚ := 1765 / 10000

structure Derived where
  google_rev : ℚ
  apple_rev : ℚ
  invest_income : ℚ
  total_revenue : ℚ
  revenue_no_tax : ℚ
  payment_processing_cost : ℚ
  cogs_sum : ℚ
  gross_profit : ℚ
  marketing_abs : ℚ
  wages_abs : ℚ
  tech_support_abs : ℚ
  other_expenses_abs : ℚ
  sga_total : ℚ
  total_opex : ℚ
  ebitda : ℚ
  net_result : ℚ
deriving DecidableEq

/-- STEP 1–7 of `calculate_pnl` for one month.  `cogs_sum` expands
`sum(abs(line_values[i].get(m, 0.0)) for i in range(43, 49))`, i.e. the
contiguous lines 43,44,45,46,47,48. -/
def derive (acc : LineTable) (m : Str) : Derived :=
  let google_rev := acc 25 m
  let apple_rev := acc 33 m
  let invest_income := acc 38 m + acc 49 m
  let total_revenue := google_rev + apple_rev + invest_income
  let revenue_no_tax := google_rev + apple_rev
  let payment_processing_cost := revenue_no_tax * payment_processing_rate
  let cogs_sum := |acc 43 m| + |acc 44 m| + |acc 45 m| + |acc 46 m| + |acc 47 m| + |acc 48 m|
  let gross_profit := total_revenue - payment_processing_cost - cogs_sum
  let marketing_abs := |acc 56 m|
  let wages_abs := |acc 62 m|
  let tech_support_abs := |acc 68 m| + |acc 65 m|
  let other_expenses_abs := |acc 90 m|
  let sga_total := marketing_abs + wages_abs + tech_support_abs
  let total_opex := sga_total + other_expenses_abs
  let ebitda := gross_profit - total_opex
  ⟨google_rev, apple_rev, invest_income, total_revenue, revenue_no_tax,
   payment_processing_cost, cogs_sum, gross_profit, marketing_abs, wages_abs,
   tech_support_abs, other_expenses_abs, sga_total, total_opex, ebitda, ebitda⟩

/-- The reserved derived lines written by the store block. -/
def derivedLines : List Int :=
  [100, 101, 112, 113, 102, 103, 104, 105, 106, 107, 108, 109, 110, 111]

/-- The value stored on each reserved derived line
(costs and expense details are stored negated). -/
def derivedValue (d : Derived) (l : Int) : ℚ :=
  if l = 100 then d.total_revenue
  else if l = 101 then d.revenue_no_tax
  else if l = 112 then d.google_rev
  else if l = 113 then d.apple_rev
  else if l = 102 then -d.payment_processing_cost
  else if l = 103 then -d.cogs_sum
  else if l = 104 then d.gross_profit
  else if l = 105 then -d.sga_total
  else if l = 106 then d.ebitda
  else if l = 107 then -d.marketing_abs
  else if l = 108 then -d.wages_abs
  else if l = 109 then -d.tech_support_abs
  else if l = 110 then -d.other_expenses_abs
  else if l = 111 then d.net_result
  else 0

/-- The store block of one derivation-loop iteration. -/
def storeDerived (acc : LineTable) (m : Str) : LineTable :=
  fun l mo =>
    if mo = m ∧ l ∈ derivedLines then derivedValue (derive acc m) l else acc l mo

/-- `for m in month_strs:` derivation loop. -/
def deriveAll (acc : LineTable) (months : List Str) : LineTable :=
  months.foldl storeDerived acc

/-! ### Overrides -/

def FINAL_LINES : List Int := [100, 106, 111]

/-- One entry of the `overrides` dict: the `int(line_str)` failure is the
only exception the surrounding `try` can swallow (the subsequent dict writes
are always within the dict's key sets). -/
def applyOneOverride (months : List Str) (acc : LineTable) (ov : Str × List (Str × ℚ)) : LineTable :=
  match parseIntPy ov.1 with
  | none => acc
  | some line =>
    if line ∈ FINAL_LINES then
      ov.2.foldl (fun a p => if p.1 ∈ months then accSet a line p.1 p.2 else a) acc
    else acc

def applyOverrides (months : List Str) (ovs : List (Str × List (Str × ℚ))) (acc : LineTable) : LineTable :=
  ovs.foldl (applyOneOverride months) acc

/-! ### Margins and the full table pipeline -/

/-- Pre-override table: accumulate then derive. -/
def tableOf (mappings : List MappingItem) (txs : List Tx) : LineTable :=
  deriveAll (accOf mappings txs) (monthStrs txs)

/-- Final table: overrides applied last, restricted to `FINAL_LINES`. -/
def finalTableOf (mappings : List MappingItem) (txs : List Tx)
    (ovs : List (Str × List (Str × ℚ))) : LineTable :=
  applyOverrides (monthStrs txs) ovs (tableOf mappings txs)

/-- `Margem EBITDA %` row entry: `(line_values[106][m] / rev) * 100` when
`rev` is nonzero (Python `if rev and rev != 0`), else `0.0`. -/
def ebitdaMarginOf (t : LineTable) (m : Str) : ℚ :=
  if t 100 m ≠ 0 then t 106 m / t 100 m * 100 else 0

/-- `Margem Bruta %` row entry. -/
def grossMarginOf (t : LineTable) (m : Str) : ℚ :=
  if t 100 m ≠ 0 then t 104 m / t 100 m * 100 else 0

/-! ### Ingestion error paths (`process_upload`, lines 129–209)

The pandas environment (the `read_csv` attempts over the encoding × separator
matrix, in the strict-then-lenient order of the two loops) is abstracted as a
list of attempt outcomes, each `none` (the attempt raised) or `some cols`
(a parse succeeded, with those raw column names).  Everything after the
detection loop is modelled directly: column-name stripping, alias renaming,
and the required-column check.  Both fatal paths raise `ValueError`; the two
messages are modelled as the exact literal texts, written with their shared
prefixes split off so the prefix structure is explicit. -/

def dateColName : Str := str ("Data de competência")

/-- The first parse attempt exposing the expected date column wins. -/
def findValidTable (attempts : List (Option (List Str))) : Option (List Str) :=
  (attempts.filterMap id).find? (fun cols => dateColName ∈ cols)

/-- `column_aliases` of `process_upload`. -/
def columnAliases : List (Str × List Str) :=
  [ (str ("Data de competência"),
      [str ("Data de competência"), str ("Data de Competência"), str ("Data Competência"),
       str ("data_competencia"), str ("Data")]),
    (str ("Valor (R$)"),
      [str ("Valor (R$)"), str ("Valor"), str ("Valor R$"), str ("valor"), str ("VALOR")]),
    (str ("Tipo"),
      [str ("Tipo"), str ("tipo"), str ("Entrada/Saída"), str ("Entrada/Saida"),
       str ("Tipo (Entrada/Saída)"), str ("Tipo (Entrada/Saida)"),
       str ("Tipo de movimentação"), str ("Tipo de Movimentação"),
       str ("Natureza"), str ("natureza")]),
    (str ("Centro de Custo 1"),
      [str ("Centro de Custo 1"), str ("Centro de Custo"), str ("CentroCusto"),
       str ("centro_custo"), str ("Centro de custo 1")]),
    (str ("Nome do fornecedor/cliente"),
      [str ("Nome do fornecedor/cliente"), str ("Fornecedor/Cliente"), str ("Nome Fornecedor"),
       str ("fornecedor_cliente"), str ("Fornecedor"), str ("Cliente")])]

/-- For each target column not already present, rename the first alias found. -/
def renameAliases (cols : List Str) : List Str :=
  columnAliases.foldl
    (fun cs ta =>
      if ta.1 ∈ cs then cs
      else
        match ta.2.find? (fun a => a ∈ cs) with
        | some al => cs.map (fun c => if c = al then ta.1 else c)
        | none => cs)
    cols

def requiredCols : List Str :=
  [str ("Data de competência"), str ("Valor (R$)"), str ("Centro de Custo 1"),
   str ("Nome do fornecedor/cliente")]

def joinComma : List Str → Str
  | [] => []
  | [s] => s
  | s :: rest => s ++ (',' :: ' ' :: joinComma rest)

def formatErrHead : Str := str ("Error reading CSV file")

def schemaErrHead : Str := str ("Missing required columns")

/-- The two `ValueError` messages of the detection loop (`last_error` is the
last fallback-parse exception text, if any). -/
def formatErrMsg (lastError : Option Str) : Str :=
  match lastError with
  | some e => formatErrHead ++ str (". Please ensure it's a valid CSV. Details: ") ++ e
  | none => formatErrHead ++ str (". Could not detect valid format (encoding/separator).")

/-- The `ValueError` message of the required-column check; the f-string's
list renderings are modelled as comma-joined names. -/
def schemaErrMsg (missing available : List Str) : Str :=
  schemaErrHead ++ str (": ") ++ joinComma missing ++ str (". Available columns: ") ++
    joinComma available ++ str ("...")

/-- The structural part of `process_upload`: format detection, column-name
stripping, alias renaming, required-column validation.  Returns the final
column list or the fatal error message. -/
def processUploadCols (attempts : List (Option (List Str))) (lastError : Option Str) :
    Except Str (List Str) :=
  match findValidTable attempts with
  | none => Except.error (formatErrMsg lastError)
  | some cols =>
    let cols1 := cols.map trimStr
    let cols2 := renameAliases cols1
    let missing := requiredCols.filter (fun c => !(cols2.contains c))
    if missing = [] then Except.ok cols2
    else Except.error (schemaErrMsg missing (cols2.take 10))

/-! ### `converter_valor_br` (value parsing) -/

/-- Python `s.replace('R$', '')` (all occurrences, left to right). -/
def removeRS : Str → Str
  | [] => []
  | 'R' :: '$' :: rest => removeRS rest
  | c :: rest => c :: removeRS rest

/-- `s.replace(' ', '')`. -/
def removeSpaces (s : Str) : Str := s.filter (fun c => !(c == ' '))

/-- `if s.startswith('(') and s.endswith(')'): negative = True; s = s[1:-1].strip()`. -/
def stripParens (s : Str) : Bool × Str :=
  if s.head? = some '(' ∧ s.getLast? = some ')' then (true, trimStr ((s.drop 1).dropLast))
  else (false, s)

/-- `if s.endswith('-'): negative = True; s = s[:-1].strip()`. -/
def stripTrailingMinus (s : Str) : Bool × Str :=
  if s.getLast? = some '-' then (true, trimStr s.dropLast) else (false, s)

/-- Index of the last occurrence of `c` (Python `s.rfind(c)`, `none` when absent). -/
def lastIdxAux (c : Char) : Str → Nat → Option Nat
  | [], _ => none
  | a :: rest, i =>
    match lastIdxAux c rest (i + 1) with
    | some j => some j
    | none => if a == c then some i else none

def lastIdxOf (c : Char) (s : Str) : Option Nat := lastIdxAux c s 0

/-- Separator disambiguation: with both `,` and `.`, the rightmost is the
decimal separator and the other is removed; with only `,`, it is decimal. -/
def sepNormalize (s : Str) : Str :=
  match lastIdxOf ',' s, lastIdxOf '.' s with
  | some ic, some idot =>
    if idot < ic then (s.filter (fun c => !(c == '.'))).map (fun c => if c == ',' then '.' else c)
    else s.filter (fun c => !(c == ','))
  | some _, none => s.map (fun c => if c == ',' then '.' else c)
  | _, _ => s

/-- Digit-string value for `float()`'s mantissa pieces. -/
def parseMantissa (s : Str) : Option ℚ :=
  match List.splitOnP (fun c => c == '.') s with
  | [ip] => (digitsToNat ip).map (fun n => (n : ℚ))
  | [ip, fp] =>
    if ip = [] ∧ fp = [] then none
    else
      match (if ip = [] then some 0 else digitsToNat ip),
            (if fp = [] then some 0 else digitsToNat fp) with
      | some i, some f => some ((i : ℚ) + (f : ℚ) / ((10 : ℚ) ^ fp.length))
      | _, _ => none
  | _ => none

def parseExpPart (s : Str) : Option Int :=
  match s with
  | '+' :: rest => (digitsToNat rest).map (fun n => (n : Int))
  | '-' :: rest => (digitsToNat rest).map (fun n => -(n : Int))
  | t => (digitsToNat t).map (fun n => (n : Int))

/-- Python `float(s)` on the decimal forms reaching the final parse:
optional surrounding whitespace and sign, digits with at most one dot,
optional exponent.  Exotic literal forms (`inf`, `nan`, underscores, hex)
are outside the model; they do not occur after the cleaning steps. -/
def pyFloatParse (s : Str) : Option ℚ :=
  let t := trimStr s
  let st : ℚ × Str :=
    match t with
    | '+' :: rest => (1, rest)
    | '-' :: rest => (-1, rest)
    | _ => (1, t)
  let me : Str × Option Str :=
    match List.splitOnP (fun c => c == 'e' || c == 'E') st.2 with
    | [mant] => (mant, none)
    | [mant, ex] => (mant, some ex)
    | _ => ([], some [])
  match parseMantissa me.1, me.2 with
  | some mv, none => some (st.1 * mv)
  | some mv, some es => (parseExpPart es).map (fun e => st.1 * mv * (10 : ℚ) ^ e)
  | none, _ => none

/-- Cleaning pipeline of `converter_valor_br`: currency-symbol removal and
strip, accounting-negative detection (parentheses, trailing minus), space
removal, separator normalization.  Returns the recorded sign flag and the
string handed to `float(...)`. -/
def converterPrep (valor : Str) : Bool × Str :=
  let s0 := trimStr (removeRS valor)
  let p1 := stripParens s0
  let p2 := stripTrailingMinus p1.2
  (p1.1 || p2.1, sepNormalize (removeSpaces p2.2))

/-- `converter_valor_br`: total; empty/whitespace (the representable face of
`pd.isna(...) or str(...).strip() == ""`) and unparsable input yield `0.0`;
otherwise the recorded sign is applied to the parsed value. -/
def converter_valor_br (valor : Str) : ℚ :=
  if trimStr valor = [] then 0
  else
    match pyFloatParse (converterPrep valor).2 with
    | some v => if (converterPrep valor).1 then -v else v
    | none => 0

/-! ### `calculate_forecast` -/

/-- Ordinary-least-squares slope over `x = 0, 1, ..., n-1`
(the closed form of `sklearn.linear_model.LinearRegression().fit`). -/
def olsSlope (ys : List ℚ) : ℚ :=
  let n : ℚ := ys.length
  let xs : List ℚ := (List.range ys.length).map (fun i => (i : ℚ))
  let sx := xs.sum
  let sy := ys.sum
  let sxy := ((xs.zip ys).map (fun p => p.1 * p.2)).sum
  let sxx := (xs.map (fun x => x * x)).sum
  (n * sxy - sx * sy) / (n * sxx - sx * sx)

def olsIntercept (ys : List ℚ) : ℚ :=
  (ys.sum - olsSlope ys * ((List.range ys.length).map (fun i => (i : ℚ))).sum) / (ys.length : ℚ)

def olsPredict (ys : List ℚ) (x : ℚ) : ℚ := olsSlope ys * x + olsIntercept ys

/-- Python `round(q, 2)` (round-half-to-even on the scaled value). -/
def round2 (q : ℚ) : ℚ :=
  let scaled := q * 100
  let fl : Int := Rat.floor scaled
  let frac := scaled - (fl : ℚ)
  let n : Int :=
    if frac < 1 / 2 then fl
    else if 1 / 2 < frac then fl + 1
    else if fl % 2 = 0 then fl else fl + 1
  (n : ℚ) / 100

def pad2 (n : Nat) : Str := if n < 10 then '0' :: Nat.toDigits 10 n else Nat.toDigits 10 n

def pad4 (n : Nat) : Str :=
  if n < 10 then '0' :: '0' :: '0' :: Nat.toDigits 10 n
  else if n < 100 then '0' :: '0' :: Nat.toDigits 10 n
  else if n < 1000 then '0' :: Nat.toDigits 10 n
  else Nat.toDigits 10 n

def parseYM (s : Str) : Option (Nat × Nat) :=
  match s with
  | [y1, y2, y3, y4, '-', m1, m2] =>
    match digitsToNat [y1, y2, y3, y4], digitsToNat [m1, m2] with
    | some y, some mo => some (y, mo)
    | _, _ => none
  | _ => none

/-- `str(pd.Period(last_month_str, freq='M') + k)` on the `YYYY-MM` month
keys produced by the pipeline. -/
def addMonthsYM (s : Str) (k : Nat) : Str :=
  match parseYM s with
  | none => s
  | some (y, mo) =>
    let t := y * 12 + (mo - 1) + k
    pad4 (t / 12) ++ ('-' :: pad2 (t % 12 + 1))

structure ForecastEntry where
  month : Str
  revenue : ℚ
  ebitda : ℚ
deriving DecidableEq

/-- The returned dict: `forecast` list plus the optional `warning` key
(present only on the insufficient-data branch). -/
structure ForecastResult where
  forecast : List ForecastEntry
  warning : Option Str
deriving DecidableEq

def insufficientMsg : Str := str ("Not enough data for reliable forecast (need 3+ months)")

/-- `calculate_forecast`: empty-headers early return (no warning), the
`< 3` months branch (warning, no fit), and the regression branch
(`months_ahead` predictions; revenue clamped with `max(0, ...)`, EBITDA
not clamped).  The revenue/EBITDA series are the P&L rows for lines
100/106 of the post-override table. -/
def calculate_forecast (mappings : List MappingItem) (txs : List Tx)
    (ovs : List (Str × List (Str × ℚ))) (months_ahead : Nat) : ForecastResult :=
  let months := monthStrs txs
  if months = [] then ⟨[], none⟩
  else
    let t := finalTableOf mappings txs ovs
    let revenue_series := months.map (fun m => t 100 m)
    let ebitda_series := months.map (fun m => t 106 m)
    if months.length < 3 then ⟨[], some insufficientMsg⟩
    else
      let last_idx := months.length - 1
      ⟨(List.range months_ahead).map (fun i =>
          ⟨addMonthsYM (months.getLastD []) (i + 1),
           max 0 (round2 (olsPredict revenue_series ((last_idx + 1 + i : Nat) : ℚ))),
           round2 (olsPredict ebitda_series ((last_idx + 1 + i : Nat) : ℚ))⟩),
       none⟩

/-! ### Concrete fixtures used by the claim theorems -/

/-- A single −5000 revenue transaction (spec §8, sign preservation). -/
def tx2 : Tx :=
  ⟨some (str ("2024-01")), -5000, str ("Google Play Net Revenue"),
   str ("GOOGLE BRASIL PAGAMENTOS LTDA"), [], none⟩

def awsRule : MappingItem :=
  m0 (str ("Web Services Expenses")) (str ("AWS")) 43 (str ("Custo")) (str ("Amazon Web Services"))

def awsSesRule : MappingItem :=
  m0 (str ("Web Services Expenses")) (str ("AWS SES")) 48 (str ("Custo")) (str ("AWS SES"))

/-- The two-pattern rule set of the longest-match spec sentence. -/
def c3rules : List MappingItem := [awsRule, awsSesRule]

/-- A transaction whose match text contains "aws ses". -/
def tx3 : Tx :=
  ⟨some (str ("2024-01")), -10, str ("Web Services Expenses"),
   str ("AWS SES Ireland"), [], none⟩

/-- A generic rule whose target line 121 lies outside the dict's 1..120 keys. -/
def rule121 : MappingItem :=
  m0 (str ("Misc CC")) (str ("Diversos")) 121 (str ("Despesa")) (str ("Out of range"))

def tx4 : Tx :=
  ⟨some (str ("2024-01")), 50, str ("Misc CC"), str ("Anything"), [], none⟩

/-- An override on line 100 (revenue) for the single month of `tx2`. -/
def ovRev : List (Str × List (Str × ℚ)) := [(str ("100"), [(str ("2024-01"), 10000)])]

/-! ## Helper lemmas -/

lemma accSet_frame (a : LineTable) (line l : Int) (mo m : Str) (v : ℚ)
    (h : l ≠ line ∨ m ≠ mo) : accSet a line mo v l m = a l m := by
  unfold accSet
  rcases h with h | h <;> simp [h]

lemma ovFold_frame (months : List Str) (line : Int) (ps : List (Str × ℚ))
    (a : LineTable) (l : Int) (m : Str) (h : l ≠ line ∨ m ∉ months) :
    ps.foldl (fun a' p => if p.1 ∈ months then accSet a' line p.1 p.2 else a') a l m = a l m := by
  induction ps generalizing a with
  | nil => rfl
  | cons p ps ih =>
    simp only [List.foldl]
    by_cases hp : p.1 ∈ months
    · rw [if_pos hp, ih, accSet_frame]
      rcases h with h | h
      · exact Or.inl h
      · exact Or.inr (fun e => h (e ▸ hp))
    · rw [if_neg hp, ih]

lemma applyOneOverride_frame (months : List Str) (a : LineTable) (ov : Str × List (Str × ℚ))
    (l : Int) (m : Str) (h : l ∉ FINAL_LINES ∨ m ∉ months) :
    applyOneOverride months a ov l m = a l m := by
  unfold applyOneOverride
  cases hp : parseIntPy ov.1 with
  | none => rfl
  | some line =>
    dsimp only
    by_cases hf : line ∈ FINAL_LINES
    · rw [if_pos hf, ovFold_frame]
      rcases h with h | h
      · exact Or.inl (fun e => h (e ▸ hf))
      · exact Or.inr h
    · rw [if_neg hf]

lemma applyOverrides_frame (months : List Str) (ovs : List (Str × List (Str × ℚ)))
    (a : LineTable) (l : Int) (m : Str) (h : l ∉ FINAL_LINES ∨ m ∉ months) :
    applyOverrides months ovs a l m = a l m := by
  induction ovs generalizing a with
  | nil => rfl
  | cons ov ovs ih =>
    simp only [applyOverrides, List.foldl] at *
    rw [ih, applyOneOverride_frame]
    exact h

/-! ## Claim theorems -/

/-- C1: for every accumulator state and month, the derived metrics of
`calculate_pnl` satisfy the fixed formulas: payment_processing_cost is
`(revenue_A + revenue_B) * 0.1765` (lines 25 and 33), cogs is the sum of the
absolute values of lines 43–48, `gross_profit = total_revenue −
payment_processing_cost − cogs`, `total_opex = abs(marketing) + abs(wages) +
tech_support_abs + abs(other_expenses)`, and `ebitda = gross_profit −
total_opex`. -/
theorem pnl_derived_formulas (acc : LineTable) (m : Str) :
    (derive acc m).payment_processing_cost = (acc 25 m + acc 33 m) * (1765 / 10000) ∧
    (derive acc m).cogs_sum =
      |acc 43 m| + |acc 44 m| + |acc 45 m| + |acc 46 m| + |acc 47 m| + |acc 48 m| ∧
    (derive acc m).gross_profit =
      (derive acc m).total_revenue - (derive acc m).payment_processing_cost -
        (derive acc m).cogs_sum ∧
    (derive acc m).total_opex =
      |acc 56 m| + |acc 62 m| + (derive acc m).tech_support_abs + |acc 90 m| ∧
    (derive acc m).ebitda = (derive acc m).gross_profit - (derive acc m).total_opex :=
  ⟨rfl, rfl, rfl, rfl, rfl⟩

/-- C2: a single matched transaction of amount −5000 on revenue line 25
(and no other transactions) yields, for its month,
`total_revenue = −5000`, `payment_processing_cost = −882.5`,
`gross_profit = −4117.5` and `cogs = 0` — the sign is preserved end to end. -/
theorem pnl_sign_preservation :
    (derive (accOf initialMappings [tx2]) (str ("2024-01"))).total_revenue = -5000 ∧
    (derive (accOf initialMappings [tx2]) (str ("2024-01"))).payment_processing_cost
      = -(1765 / 2) ∧
    (derive (accOf initialMappings [tx2]) (str ("2024-01"))).gross_profit = -(8235 / 2) ∧
    (derive (accOf initialMappings [tx2]) (str ("2024-01"))).cogs_sum = 0 :=
  ⟨by with_unfolding_all rfl, by with_unfolding_all rfl,
   by with_unfolding_all rfl, by with_unfolding_all rfl⟩

/-- C4 counterexample: `tx4` is matched (to the generic rule whose target
line parses as the integer 121) yet its amount is NOT added to
accumulator[121][month] — the accumulator stays 0 there, because line 121
is outside the `line_values` dict keys 1..120 and the `KeyError` is
silently swallowed.  This refutes "target lines are open-ended (no matched
transaction with an integer target line is dropped because of the line
number's value)". -/
theorem accumulator_line121_dropped :
    matchTx [rule121] tx4 = some rule121 ∧
    parseIntPy rule121.linha_pl = some 121 ∧
    (processTx [rule121] [str ("2024-01")] acc0 tx4) 121 (str ("2024-01")) = 0 ∧
    tx4.val ≠ 0 :=
  ⟨by with_unfolding_all rfl, by with_unfolding_all rfl,
   by with_unfolding_all rfl, by with_unfolding_all decide⟩

/-- C4 amended: accumulation adds each matched transaction's signed amount
to accumulator[target_line][month] when the integer target line lies in the
dict's key range 1..120; a matched transaction whose integer target line
lies outside 1..120 is silently dropped (the accumulator is unchanged). -/
theorem accumulation_line_bounded (mappings : List MappingItem) (months : List Str)
    (acc : LineTable) (tx : Tx) (mo : Str) (mp : MappingItem) (line : Int)
    (hmo : tx.month = some mo) (hin : mo ∈ months)
    (hmatch : matchTx mappings tx = some mp)
    (hline : parseIntPy mp.linha_pl = some line) :
    (1 ≤ line ∧ line ≤ 120 →
      processTx mappings months acc tx = accAdd acc line mo tx.val) ∧
    (¬(1 ≤ line ∧ line ≤ 120) → processTx mappings months acc tx = acc) := by
  unfold processTx
  rw [hmo]
  dsimp only
  rw [if_pos hin, hmatch]
  dsimp only
  rw [hline]
  dsimp only
  constructor
  · intro h; rw [if_pos h]
  · intro h; rw [if_neg h]

theorem accumulation_line_bounded_witness :
    ((1 : Int) ≤ 48 ∧ (48 : Int) ≤ 120 →
      processTx c3rules [str ("2024-01")] acc0 tx3 = accAdd acc0 48 (str ("2024-01")) tx3.val) ∧
    (¬((1 : Int) ≤ 48 ∧ (48 : Int) ≤ 120) →
      processTx c3rules [str ("2024-01")] acc0 tx3 = acc0) :=
  accumulation_line_bounded c3rules [str ("2024-01")] acc0 tx3 (str ("2024-01")) awsSesRule 48
    (by with_unfolding_all rfl) (by decide)
    (by with_unfolding_all rfl) (by with_unfolding_all rfl)

/-- C5 counterexample: for the month of `tx2` the engine's reported gross
margin is `82.35` while the claimed value "numerator divided by
total_revenue" is `0.8235`; the two differ (the code multiplies the ratio
by 100).  This refutes "the margins are the respective numerator divided by
total_revenue when it is nonzero" read literally. -/
theorem margin_ratio_counterexample :
    grossMarginOf (finalTableOf initialMappings [tx2] []) (str ("2024-01")) = 8235 / 100 ∧
    (finalTableOf initialMappings [tx2] []) 104 (str ("2024-01")) /
        (finalTableOf initialMappings [tx2] []) 100 (str ("2024-01")) = 8235 / 10000 ∧
    (8235 / 100 : ℚ) ≠ (8235 / 10000 : ℚ) :=
  ⟨by with_unfolding_all rfl, by with_unfolding_all rfl, by with_unfolding_all decide⟩

/-- C5 amended: for every month of the final (post-override) table, each
margin is the respective numerator divided by total_revenue **times 100**
(a percentage) when total_revenue is nonzero, and exactly 0 when
total_revenue is 0.  Both margins are total rational-valued functions —
the guarded division never produces NaN or ±∞. -/
theorem margins_safe_division (mappings : List MappingItem) (txs : List Tx)
    (ovs : List (Str × List (Str × ℚ))) (m : Str) :
    grossMarginOf (finalTableOf mappings txs ovs) m =
      (if finalTableOf mappings txs ovs 100 m = 0 then 0
       else finalTableOf mappings txs ovs 104 m / finalTableOf mappings txs ovs 100 m * 100) ∧
    ebitdaMarginOf (finalTableOf mappings txs ovs) m =
      (if finalTableOf mappings txs ovs 100 m = 0 then 0
       else finalTableOf mappings txs ovs 106 m / finalTableOf mappings txs ovs 100 m * 100) := by
  constructor <;>
    · by_cases h : finalTableOf mappings txs ovs 100 m = 0 <;>
        simp [grossMarginOf, ebitdaMarginOf, h]

/-- C6: applying the override map changes nothing outside the reserved final
lines 100 (revenue), 106 (EBITDA) and 111 (net result), and nothing outside
the computed month list: at every other (line, month) position the final
table equals the pre-override table, so such overrides are silently
ignored. -/
theorem overrides_final_lines_only (mappings : List MappingItem) (txs : List Tx)
    (ovs : List (Str × List (Str × ℚ))) (l : Int) (m : Str)
    (h : l ∉ FINAL_LINES ∨ m ∉ monthStrs txs) :
    finalTableOf mappings txs ovs l m = tableOf mappings txs l m :=
  applyOverrides_frame (monthStrs txs) ovs (tableOf mappings txs) l m h

theorem overrides_final_lines_only_witness :
    finalTableOf initialMappings [tx2] [(str ("105"), [(str ("2024-01"), 7)])] 105
        (str ("2024-01")) =
      tableOf initialMappings [tx2] 105 (str ("2024-01")) :=
  overrides_final_lines_only initialMappings [tx2] [(str ("105"), [(str ("2024-01"), 7)])] 105
    (str ("2024-01")) (Or.inl (by decide))

/-- C10: the margin rows are computed from the post-override table (lines
100 and 106 after `applyOverrides`), while gross profit (line 104) and the
other intermediate derived lines are not recomputed after overrides.
Concretely, overriding revenue (line 100) of the `tx2` month to 10000
changes the reported EBITDA margin from 82.35 to −41.175 while line 104
keeps its pre-override value; in general every derived line other than
100/106/111 is unchanged by any override map. -/
theorem margins_use_post_override_values :
    (∀ (mappings : List MappingItem) (txs : List Tx) (ovs : List (Str × List (Str × ℚ)))
        (m : Str),
      finalTableOf mappings txs ovs 101 m = tableOf mappings txs 101 m ∧
      finalTableOf mappings txs ovs 102 m = tableOf mappings txs 102 m ∧
      finalTableOf mappings txs ovs 103 m = tableOf mappings txs 103 m ∧
      finalTableOf mappings txs ovs 104 m = tableOf mappings txs 104 m ∧
      finalTableOf mappings txs ovs 105 m = tableOf mappings txs 105 m ∧
      finalTableOf mappings txs ovs 107 m = tableOf mappings txs 107 m ∧
      finalTableOf mappings txs ovs 108 m = tableOf mappings txs 108 m ∧
      finalTableOf mappings txs ovs 109 m = tableOf mappings txs 109 m ∧
      finalTableOf mappings txs ovs 110 m = tableOf mappings txs 110 m ∧
      finalTableOf mappings txs ovs 112 m = tableOf mappings txs 112 m ∧
      finalTableOf mappings txs ovs 113 m = tableOf mappings txs 113 m) ∧
    finalTableOf initialMappings [tx2] ovRev 100 (str ("2024-01")) = 10000 ∧
    ebitdaMarginOf (finalTableOf initialMappings [tx2] ovRev) (str ("2024-01")) = -(8235 / 200) ∧
    ebitdaMarginOf (tableOf initialMappings [tx2]) (str ("2024-01")) = 8235 / 100 ∧
    finalTableOf initialMappings [tx2] ovRev 104 (str ("2024-01")) =
      tableOf initialMappings [tx2] 104 (str ("2024-01")) := by
  refine ⟨fun mappings txs ovs m => ?_,
    by with_unfolding_all rfl, by with_unfolding_all rfl,
    by with_unfolding_all rfl, by with_unfolding_all rfl⟩
  refine ⟨?_, ?_, ?_, ?_, ?_, ?_, ?_, ?_, ?_, ?_, ?_⟩ <;>
    exact applyOverrides_frame _ _ _ _ _ (Or.inl (by decide))

/-- C3: (a) for every rule set and cost center, the prepared specific-rule
list is sorted by normalized counterparty-pattern length, descending — a
longer pattern is always tried before a shorter one within the same
normalized cost center (and the matcher is a pure function of the rule set
and transaction, hence deterministic); (b) with the "AWS" / "AWS SES" rule
pair under one cost center, any transaction whose match text contains
"aws ses" is assigned the "AWS SES" rule and never the "AWS" rule. -/
theorem matcher_longest_first :
    (∀ (mappings : List MappingItem) (cc : Str),
        List.Sorted suppLenGE (specificFor mappings cc)) ∧
    (∀ tx : Tx, norm tx.cc = str ("web services expenses") →
        hasSub (str ("aws ses")) (matchText tx) = true →
        matchTx c3rules tx = some awsSesRule ∧ matchTx c3rules tx ≠ some awsRule) := by
  refine ⟨fun mappings cc => List.sorted_insertionSort suppLenGE _, fun tx hcc hsub => ?_⟩
  have hspec : specificFor c3rules (str ("web services expenses")) = [awsSesRule, awsRule] := by
    decide
  have hn : norm awsSesRule.fornecedor_cliente = str ("aws ses") := by decide
  have hfirst : (fun m => hasSub (norm m.fornecedor_cliente) (matchText tx)) awsSesRule = true := by
    dsimp only
    rw [hn]
    exact hsub
  have hms : matchSpec (specificFor c3rules (norm tx.cc)) (matchText tx) = some awsSesRule := by
    rw [hcc, hspec]
    show List.find? (fun m => hasSub (norm m.fornecedor_cliente) (matchText tx))
        (awsSesRule :: [awsRule]) = some awsSesRule
    exact List.find?_cons_of_pos _ hfirst
  have hfin : matchTx c3rules tx = some awsSesRule := by
    simp only [matchTx, hms]
  refine ⟨hfin, ?_⟩
  rw [hfin]
  intro hbad
  exact absurd (Option.some.inj hbad) (by decide)

theorem matcher_longest_first_witness :
    matchTx c3rules tx3 = some awsSesRule ∧ matchTx c3rules tx3 ≠ some awsRule :=
  matcher_longest_first.2 tx3 (by decide) (by decide)

lemma leadsStr_append (p r : Str) : leadsStr p (p ++ r) = true := by
  induction p with
  | nil => rfl
  | cons a as ih => simp [leadsStr, ih]

lemma leadsStr_head_eq {a b : Char} {p q m : Str} (h1 : leadsStr (a :: p) m = true)
    (h2 : leadsStr (b :: q) m = true) : a = b := by
  cases m with
  | nil => simp [leadsStr] at h1
  | cons c r =>
    simp only [leadsStr, Bool.and_eq_true, beq_iff_eq] at h1 h2
    exact h1.1.trans h2.1.symm

/-- C7: the two structural ingestion failures of `process_upload` are
distinguishable error kinds.  When no parse attempt exposes the expected
date column, the raised error message starts with the format-detection text
"Error reading CSV file"; when required columns are still missing after
alias reconciliation, the raised message starts with "Missing required
columns" and contains the list of available columns; and no message carries
both heads, so a caller can tell the two kinds apart.  (Both are raised as
`ValueError` in Python; the kinds are distinguished by these disjoint
message heads.) -/
theorem ingestion_error_kinds :
    (∀ (attempts : List (Option (List Str))) (lastError : Option Str),
        findValidTable attempts = none →
        ∃ msg, processUploadCols attempts lastError = Except.error msg ∧
          leadsStr formatErrHead msg = true) ∧
    (∀ (attempts : List (Option (List Str))) (lastError : Option Str) (cols : List Str),
        findValidTable attempts = some cols →
        requiredCols.filter (fun c => !((renameAliases (cols.map trimStr)).contains c)) ≠ [] →
        ∃ msg, processUploadCols attempts lastError = Except.error msg ∧
          leadsStr schemaErrHead msg = true ∧
          ∃ u v, msg = u ++ joinComma ((renameAliases (cols.map trimStr)).take 10) ++ v) ∧
    (∀ msg : Str, ¬(leadsStr formatErrHead msg = true ∧ leadsStr schemaErrHead msg = true)) := by
  refine ⟨fun attempts lastError h => ?_, fun attempts lastError cols h hm => ?_, fun msg h => ?_⟩
  · refine ⟨formatErrMsg lastError, by simp only [processUploadCols, h], ?_⟩
    cases lastError with
    | none => exact leadsStr_append formatErrHead _
    | some e =>
      show leadsStr formatErrHead ((formatErrHead ++ _) ++ e) = true
      rw [List.append_assoc]
      exact leadsStr_append formatErrHead _
  · refine ⟨schemaErrMsg
        (requiredCols.filter (fun c => !((renameAliases (cols.map trimStr)).contains c)))
        ((renameAliases (cols.map trimStr)).take 10), ?_, ?_, ?_⟩
    · simp only [processUploadCols, h]
      rw [if_neg hm]
    · show leadsStr schemaErrHead ((((schemaErrHead ++ _) ++ _) ++ _) ++ _ ++ _) = true
      simp only [List.append_assoc]
      exact leadsStr_append schemaErrHead _
    · exact ⟨_, _, rfl⟩
  · obtain ⟨h1, h2⟩ := h
    have hF : formatErrHead = 'E' :: str ("rror reading CSV file") := by decide
    have hS : schemaErrHead = 'M' :: str ("issing required columns") := by decide
    rw [hF] at h1
    rw [hS] at h2
    exact absurd (leadsStr_head_eq h1 h2) (by decide)

theorem ingestion_error_kinds_witness :
    (∃ msg, processUploadCols [none, some [str ("foo")]] none = Except.error msg ∧
        leadsStr formatErrHead msg = true) ∧
    (∃ msg, processUploadCols [some [dateColName]] none = Except.error msg ∧
        leadsStr schemaErrHead msg = true ∧
        ∃ u v, msg = u ++ joinComma ((renameAliases ([dateColName].map trimStr)).take 10) ++ v) ∧
    ¬(leadsStr formatErrHead [] = true ∧ leadsStr schemaErrHead [] = true) :=
  ⟨ingestion_error_kinds.1 [none, some [str ("foo")]] none (by decide),
   ingestion_error_kinds.2.1 [some [dateColName]] none [dateColName] (by decide) (by decide),
   ingestion_error_kinds.2.2 []⟩

/-- C8 counterexample: with zero historical months the forecaster returns an
empty forecast dict with NO warning key (`warning = none`) — there is no
explicit insufficient-data signal, contradicting the claim's "(including
zero months) … together with an explicit insufficient-data signal".  (The
`df is None` early return behaves the same way.) -/
theorem forecast_zero_months_no_signal :
    monthStrs ([] : List Tx) = [] ∧
    calculate_forecast initialMappings [] [] 3 = ⟨[], none⟩ :=
  ⟨rfl, rfl⟩

/-- C8 amended: with at least one but fewer than 3 historical months the
forecaster returns an empty forecast together with the explicit
insufficient-data warning and fits no model; with zero months it returns an
empty forecast with no warning; with 3 or more months it returns
`months_ahead` predictions whose revenue is clamped to ≥ 0 with
`max 0 (…)` while EBITDA is the unclamped rounded OLS prediction.  No error
is raised on any branch (the function is total). -/
theorem forecast_branch_behavior (mappings : List MappingItem) (txs : List Tx)
    (ovs : List (Str × List (Str × ℚ))) (ahead : Nat) :
    (calculate_forecast mappings txs ovs ahead).warning =
      (if monthStrs txs = [] then none
       else if (monthStrs txs).length < 3 then some insufficientMsg else none) ∧
    (calculate_forecast mappings txs ovs ahead).forecast =
      (if (monthStrs txs).length < 3 then []
       else (List.range ahead).map (fun i =>
         ⟨addMonthsYM ((monthStrs txs).getLastD []) (i + 1),
          max 0 (round2 (olsPredict
            ((monthStrs txs).map (fun m => finalTableOf mappings txs ovs 100 m))
            (((monthStrs txs).length - 1 + 1 + i : Nat) : ℚ))),
          round2 (olsPredict
            ((monthStrs txs).map (fun m => finalTableOf mappings txs ovs 106 m))
            (((monthStrs txs).length - 1 + 1 + i : Nat) : ℚ))⟩)) := by
  unfold calculate_forecast
  by_cases h0 : monthStrs txs = []
  · have h3 : (monthStrs txs).length < 3 := by rw [h0]; decide
    simp [h0, h3]
  · by_cases h3 : (monthStrs txs).length < 3
    · simp [h0, h3]
    · simp [h0, h3]

/-- C9: `converter_valor_br` is a total function into ℚ (it never raises by
construction).  Whenever the cleaned string fails the final numeric parse —
in particular for empty or unparsable input — the result is exactly `0`;
whenever the parse yields `v`, the recorded accounting-negative sign
(parenthesized value or trailing minus) is applied, giving `-v` (so for a
non-negative parsed magnitude the result is its negation).  The concrete
evaluations exercise the Brazilian format, both accounting-negative
notations, and the unparsable / empty fallbacks. -/
theorem converter_total_and_sign :
    (∀ s : Str, pyFloatParse (converterPrep s).2 = none → converter_valor_br s = 0) ∧
    (∀ (s : Str) (v : ℚ), trimStr s ≠ [] → pyFloatParse (converterPrep s).2 = some v →
        converter_valor_br s = if (converterPrep s).1 then -v else v) ∧
    converter_valor_br (str ("(1.234,56)")) = -(123456 / 100) ∧
    converter_valor_br (str ("1.234,56-")) = -(123456 / 100) ∧
    converter_valor_br (str ("R$ 2.500,75")) = 250075 / 100 ∧
    converter_valor_br (str ("abc")) = 0 ∧
    converter_valor_br (str ("")) = 0 := by
  refine ⟨fun s h => ?_, fun s v hne h => ?_,
    by with_unfolding_all rfl, by with_unfolding_all rfl, by with_unfolding_all rfl,
    by with_unfolding_all rfl, by with_unfolding_all rfl⟩
  · unfold converter_valor_br
    by_cases ht : trimStr s = []
    · rw [if_pos ht]
    · rw [if_neg ht, h]
  · unfold converter_valor_br
    rw [if_neg hne, h]

theorem converter_total_and_sign_witness :
    converter_valor_br (str ("xyz")) = 0 ∧
    converter_valor_br (str ("R$ 10,5")) =
      (if (converterPrep (str ("R$ 10,5"))).1 then -(21 / 2) else (21 / 2)) :=
  ⟨converter_total_and_sign.1 (str ("xyz")) (by with_unfolding_all rfl),
   converter_total_and_sign.2.1 (str ("R$ 10,5")) (21 / 2) (by decide)
     (by with_unfolding_all rfl)⟩
